import Mathlib

/-!
Shallow embedding of `libledriver` (src/ledriver.hpp, src/ledriver.cpp): a
connectionless UDP client for a remote LED driver.  The embedding follows the
POSIX (non-`_WIN32`) code path on a little-endian host, so `htons`/`htonl`
are byte swaps and a struct's in-memory bytes store each multi-byte field
least-significant byte first.  Errno values are the Linux ones used by the
source: ENOTCONN 107, EINVAL 22, EIO 5, ETIMEDOUT 110, EWOULDBLOCK = EAGAIN
11.  `std::system_error` is modelled by `SysError` (numeric code, category,
context string); the operating network layer is modelled by explicit
environment values (`SendRes`, `RecvRes`, `ConsEnv`) giving the result of
each syscall, and every member function is translated in state-passing style
(it returns its result together with the controller state it leaves behind).
-/

namespace LEDriver

/-- Linux errno ENOTCONN. -/
def ENOTCONN : Nat := 107

/-- Linux errno EINVAL. -/
def EINVAL : Nat := 22

/-- Linux errno 5, the input-output error thrown as `std::system_error(EIO, generic)`. -/
def EIOerrno : Nat := 5

/-- Linux errno ETIMEDOUT. -/
def ETIMEDOUT : Nat := 110

/-- Linux errno EWOULDBLOCK (= EAGAIN = 11 on Linux). -/
def EWOULDBLOCK : Nat := 11

/-- Linux errno EAGAIN (= EWOULDBLOCK = 11 on Linux). -/
def EAGAIN : Nat := 11

/-- Linux address family AF_INET. -/
def AF_INET : Nat := 2

/-- Linux address family AF_INET6. -/
def AF_INET6 : Nat := 10

/-- The two categories of `std::error_category` the source uses:
`std::generic_category()` for errors it synthesizes itself (ENOTCONN, EINVAL,
EIO) and `std::system_category()` for errors built from `GET_SOCKET_ERROR()`
(= `errno`), i.e. faults reported by the network layer. -/
inductive ErrCat where
  | generic : ErrCat
  | system : ErrCat
deriving DecidableEq, Repr

/-- Model of a thrown `std::system_error`: numeric error code, category, and
the context string passed to the constructor (empty when none was passed). -/
structure SysError where
  code : Nat
  cat : ErrCat
  ctx : String
deriving DecidableEq, Repr

/-- `invalid_socket` on the POSIX path is `-1`. -/
def invalid_socket : Int := -1

/-- The `LEDriver::Controller` state: just the socket descriptor `fd_`. -/
structure Controller where
  fd : Int
deriving DecidableEq, Repr

/-- `Controller::is_valid()`: `fd_ != invalid_socket`. -/
def Controller.is_valid (c : Controller) : Bool :=
  c.fd != invalid_socket

/-- `Controller::close()`: a no-op on an invalid handle, otherwise release
the descriptor and set `fd_ = invalid_socket`. -/
def Controller.close (c : Controller) : Controller :=
  if c.fd = invalid_socket then c else { fd := invalid_socket }

/-- Move construction: `fd_(std::exchange(other.fd_, invalid_socket))`.
Returns (the new controller, `other` after the exchange). -/
def Controller.moveCtor (other : Controller) : Controller × Controller :=
  ({ fd := other.fd }, { fd := invalid_socket })

/-- Move assignment onto `dst` from a distinct `src`: `close()` the
destination, then exchange.  Returns (the new `dst`, `src` afterwards). -/
def Controller.moveAssign (dst src : Controller) : Controller × Controller :=
  let _ := dst.close
  ({ fd := src.fd }, { fd := invalid_socket })

/-- The `LEDriver::Action` opcode enumeration. -/
inductive Action where
  | NONE : Action
  | PING : Action
  | UPDATE : Action
deriving DecidableEq, Repr

/-- `SERIALIZE_ACTION`: cast of the enum to its `u8` value
(NONE = 0x00, PING = 0x01, UPDATE = 0x02). -/
def SERIALIZE_ACTION (a : Action) : Nat :=
  match a with
  | .NONE => 0
  | .PING => 1
  | .UPDATE => 2

/-- `SERIALIZE_U16` = `htons`: byte swap of a 16-bit value on the
little-endian host. -/
def SERIALIZE_U16 (x : Nat) : Nat :=
  x % 256 * 256 + x / 256 % 256

/-- `DESERIALIZE_U16` = `ntohs`: byte swap of a 16-bit value on the
little-endian host. -/
def DESERIALIZE_U16 (x : Nat) : Nat :=
  x % 256 * 256 + x / 256 % 256

/-- `SERIALIZE_U32` = `htonl`: byte swap of a 32-bit value on the
little-endian host. -/
def SERIALIZE_U32 (x : Nat) : Nat :=
  x % 256 * 16777216 + x / 256 % 256 * 65536 + x / 65536 % 256 * 256 + x / 16777216 % 256

/-- The `RootHeader` struct: `u32 magic; u8 version; u8 action; u16 flags`.
Field values are whatever the program stored there (already in network order
when the program called a SERIALIZE function first, as `ping`/`update` do). -/
structure RootHeader where
  magic : Nat
  version : Nat
  action : Nat
  flags : Nat
deriving DecidableEq, Repr

/-- `RootHeader::magic_value` = 0x4C454452 ("LEDR"). -/
def RootHeader.magic_value : Nat := 0x4C454452

/-- `RootHeader::protocol_version` = 0x00. -/
def RootHeader.protocol_version : Nat := 0

/-- Little-endian in-memory bytes of a `u16` field. -/
def u16leBytes (x : Nat) : List Nat :=
  [x % 256, x / 256 % 256]

/-- Little-endian in-memory bytes of a `u32` field. -/
def u32leBytes (x : Nat) : List Nat :=
  [x % 256, x / 256 % 256, x / 65536 % 256, x / 16777216 % 256]

/-- The 8 in-memory bytes of a `RootHeader` (the bytes `TO_CIOV` hands to
`send_` and `recv_` fills): LE layout, `magic` at offset 0, `version` at 4,
`action` at 5, `flags` at 6. -/
def RootHeader.toBytes (h : RootHeader) : List Nat :=
  u32leBytes h.magic ++ [h.version % 256, h.action % 256] ++ u16leBytes h.flags

/-- Reading a `RootHeader` back out of its 8 in-memory bytes (what the
comparison in `ping` sees after `recv_` filled `pong_header`). -/
def RootHeader.ofBytes (bs : List Nat) : RootHeader :=
  { magic := bs.getD 0 0 + bs.getD 1 0 * 256 + bs.getD 2 0 * 65536 + bs.getD 3 0 * 16777216
    version := bs.getD 4 0
    action := bs.getD 5 0
    flags := bs.getD 6 0 + bs.getD 7 0 * 256 }

/-- Result of the one `sendmsg` syscall a `send_` call makes: either it
failed with an errno, or it reported `n` bytes sent. -/
inductive SendRes where
  | fault : Nat → SendRes
  | sent : Nat → SendRes
deriving DecidableEq, Repr

/-- Result of the one `recv` syscall a `recv_` call makes: either it failed
with an errno, or a datagram with the given byte values arrived (`recv`
copies at most the buffer size of it and returns the number copied). -/
inductive RecvRes where
  | fault : Nat → RecvRes
  | dgram : List Nat → RecvRes
deriving DecidableEq, Repr

/-- Total byte count of a segment list (the `to_send` accumulator). -/
def totalBytes (segs : List (List Nat)) : Nat :=
  (segs.map List.length).sum

/-- `Controller::send_(data)`: throw ENOTCONN on an invalid handle, EINVAL on
an empty segment list or a zero total byte count (both before the syscall);
then `sendmsg` once: a negative result throws the errno with
`std::system_category()` and context "sendmsg", and a reported count different
from `to_send` throws `std::system_error(EIO, generic)`.  (The per-segment
`size() > SIZE_MAX` guard of the source cannot fire in this model and is
omitted.) -/
def send_ (c : Controller) (data : List (List Nat)) (env : SendRes) :
    Except SysError Unit :=
  if ¬ c.is_valid then .error ⟨ENOTCONN, .generic, ""⟩
  else if data.isEmpty then .error ⟨EINVAL, .generic, ""⟩
  else if totalBytes data = 0 then .error ⟨EINVAL, .generic, ""⟩
  else
    match env with
    | .fault e => .error ⟨e, .system, "sendmsg"⟩
    | .sent n => if n ≠ totalBytes data then .error ⟨EIOerrno, .generic, ""⟩ else .ok ()

/-- `Controller::recv_(buffer)` with a buffer of `buflen` bytes: throw
ENOTCONN on an invalid handle, EINVAL on an empty buffer; then `recv` once: a
negative result throws the errno with `std::system_category()` and context
"recv"; otherwise return the number of bytes received together with the
bytes written into the buffer (a datagram longer than the buffer is
truncated to `buflen`). -/
def recv_ (c : Controller) (buflen : Nat) (env : RecvRes) :
    Except SysError (Nat × List Nat) :=
  if ¬ c.is_valid then .error ⟨ENOTCONN, .generic, ""⟩
  else if buflen = 0 then .error ⟨EINVAL, .generic, ""⟩
  else
    match env with
    | .fault e => .error ⟨e, .system, "recv"⟩
    | .dgram bs => .ok (min bs.length buflen, bs.take buflen)

/-- The header `ping()` builds and sends: `magic = SERIALIZE_U32(magic_value)`,
`version = protocol_version`, `action = SERIALIZE_ACTION(PING)`, `flags = 0`. -/
def pingHeader : RootHeader :=
  { magic := SERIALIZE_U32 RootHeader.magic_value
    version := RootHeader.protocol_version
    action := SERIALIZE_ACTION .PING
    flags := 0 }

/-- The field-by-field comparison at the end of `ping()`:
`ping_header.magic == pong_header.magic && ... && flags == flags`. -/
def headerCompare (a b : RootHeader) : Bool :=
  a.magic == b.magic && a.version == b.version && a.action == b.action && a.flags == b.flags

/-- The catch clause's timeout test on `se.code().value()`:
`code == ETIMEDOUT || code == EWOULDBLOCK || code == EAGAIN`. -/
def isTimeoutCode (code : Nat) : Bool :=
  code == ETIMEDOUT || code == EWOULDBLOCK || code == EAGAIN

/-- The try block of `ping()`: receive into the 8-byte `pong_header`, throw
`std::system_error(EIO, generic)` if the byte count is not exactly
`sizeof(RootHeader)` = 8, otherwise yield the received header. -/
def pingTry (c : Controller) (re : RecvRes) : Except SysError RootHeader :=
  match recv_ c 8 re with
  | .error e => .error e
  | .ok (n, buf) =>
    if n ≠ 8 then .error ⟨EIOerrno, .generic, ""⟩
    else .ok (RootHeader.ofBytes buf)

/-- `Controller::ping()`.  Throws ENOTCONN on an invalid handle; sends the
PING header as one segment; runs the try block `pingTry`; the catch clause
turns any caught error whose numeric code is a timeout/would-block code into
the return value `false` and rethrows every other error unchanged; finally
the sent and received headers are compared field by field.  The body never
assigns `fd_`, so the controller state returned is the entry state. -/
def ping (c : Controller) (se : SendRes) (re : RecvRes) :
    Except SysError Bool × Controller :=
  if ¬ c.is_valid then (.error ⟨ENOTCONN, .generic, ""⟩, c)
  else
    match send_ c [pingHeader.toBytes] se with
    | .error e => (.error e, c)
    | .ok _ =>
      match pingTry c re with
      | .error e => if isTimeoutCode e.code then (.ok false, c) else (.error e, c)
      | .ok pong => (.ok (headerCompare pingHeader pong), c)

/-- The header `update()` builds: like the PING header but
`action = SERIALIZE_ACTION(UPDATE)`. -/
def updateHeader : RootHeader :=
  { magic := SERIALIZE_U32 RootHeader.magic_value
    version := RootHeader.protocol_version
    action := SERIALIZE_ACTION .UPDATE
    flags := 0 }

/-- The in-memory bytes of `const std::uint16_t values[3]{SERIALIZE_U16(r),
SERIALIZE_U16(g), SERIALIZE_U16(b)}`: three LE `u16` slots each holding the
byte-swapped channel value. -/
def updatePayloadBytes (r g b : Nat) : List Nat :=
  u16leBytes (SERIALIZE_U16 r) ++ u16leBytes (SERIALIZE_U16 g) ++ u16leBytes (SERIALIZE_U16 b)

/-- The two segments `update()` hands to `send_` in its one gather-send
call: the 8 header bytes first, the 6 payload bytes second. -/
def updateSegments (r g b : Nat) : List (List Nat) :=
  [updateHeader.toBytes, updatePayloadBytes r g b]

/-- `Controller::update(r, g, b)`: throw ENOTCONN on an invalid handle, then
one `send_` of the two segments; nothing is received and no field of the
controller is assigned, so the state returned is the entry state. -/
def update (c : Controller) (r g b : Nat) (env : SendRes) :
    Except SysError Unit × Controller :=
  if ¬ c.is_valid then (.error ⟨ENOTCONN, .generic, ""⟩, c)
  else (send_ c (updateSegments r g b) env, c)

/-- Environment for the constructor: the results of its three syscalls.
`socketRes` is `.error errno` when `::socket` fails, else `.ok fd`;
`connectRes`/`sockoptRes` are `some errno` when `::connect` /
`::setsockopt` fail, else `none`. -/
structure ConsEnv where
  socketRes : Except Nat Int
  connectRes : Option Nat
  sockoptRes : Option Nat
deriving Repr

/-- `Controller::Controller(addr, timeout)` on the POSIX path, keeping track
of resources: the result is (outcome, descriptors opened, descriptors
closed).  An address family other than AF_INET/AF_INET6 throws
`std::system_error(EINVAL, generic)` before any syscall; a `::socket`
failure throws the errno (system category, context "socket") with no
descriptor opened; a `::connect` or `::setsockopt` failure calls `close()`
on the fresh descriptor and then throws the errno (system category, context
"connect" / "setsockopt"); on success the controller owns the open
descriptor. -/
def construct (family : Nat) (env : ConsEnv) :
    Except SysError Controller × List Int × List Int :=
  if family ≠ AF_INET ∧ family ≠ AF_INET6 then
    (.error ⟨EINVAL, .generic, ""⟩, [], [])
  else
    match env.socketRes with
    | .error e => (.error ⟨e, .system, "socket"⟩, [], [])
    | .ok fd =>
      match env.connectRes with
      | some e => (.error ⟨e, .system, "connect"⟩, [fd], [fd])
      | none =>
        match env.sockoptRes with
        | some e => (.error ⟨e, .system, "setsockopt"⟩, [fd], [fd])
        | none => (.ok ⟨fd⟩, [fd], [])

/-- The spec's "TransportError carrying the underlying network fault": in the
source every error built from a network-layer fault is
`std::system_error(GET_SOCKET_ERROR(), std::system_category(), <syscall>)`,
i.e. a system-category error, while every synthesized kind (InvalidArgument
= EINVAL, NotConnected = ENOTCONN, IOError = EIO) uses
`std::generic_category()`.  Modelled from the spec for comparison with the
code's behaviour. -/
def specTransportFault (e : SysError) : Prop :=
  e.cat = ErrCat.system

/-- Decoding a received Update payload as the spec describes the peer doing
it: read each 16-bit slot of the 6 payload bytes (LE memory layout) and
apply `DESERIALIZE_U16` (network-to-host). -/
def decodePayload (bs : List Nat) : Nat × Nat × Nat :=
  (DESERIALIZE_U16 (bs.getD 0 0 + bs.getD 1 0 * 256),
   DESERIALIZE_U16 (bs.getD 2 0 + bs.getD 3 0 * 256),
   DESERIALIZE_U16 (bs.getD 4 0 + bs.getD 5 0 * 256))

/-- Base-256 digit extraction: the two digits of `a * 256 + b`. -/
lemma digits256 (a b : Nat) (_ha : a < 256) (hb : b < 256) :
    (a * 256 + b) % 256 = b ∧ (a * 256 + b) / 256 = a := by
  omega

/-- The concrete wire bytes of the PING header: "LEDR", version 0, action
0x01, flags 0x0000. -/
lemma pingHeader_toBytes_eq : pingHeader.toBytes = [76, 69, 68, 82, 0, 1, 0, 0] := by
  decide

/-- Sending the PING header succeeds on a valid handle when `sendmsg`
reports all 8 bytes sent. -/
lemma send_ping_ok (c : Controller) (hv : c.is_valid = true) :
    send_ c [pingHeader.toBytes] (.sent 8) = .ok () := by
  simp [send_, hv, totalBytes, pingHeader_toBytes_eq]

/-- A list of length 8 is an explicit 8-element list. -/
lemma exists_eight (l : List Nat) (h : l.length = 8) :
    ∃ a b c d e f g i, l = [a, b, c, d, e, f, g, i] := by
  rcases l with _ | ⟨a, l⟩
  · simp at h
  rcases l with _ | ⟨b, l⟩
  · simp at h
  rcases l with _ | ⟨c, l⟩
  · simp at h
  rcases l with _ | ⟨d, l⟩
  · simp at h
  rcases l with _ | ⟨e, l⟩
  · simp at h
  rcases l with _ | ⟨f, l⟩
  · simp at h
  rcases l with _ | ⟨g, l⟩
  · simp at h
  rcases l with _ | ⟨i, l⟩
  · simp at h
  rcases l with _ | ⟨j, l⟩
  · exact ⟨a, b, c, d, e, f, g, i, rfl⟩
  · simp at h

/-- C4: on a handle with `is_valid() = false` (closed, moved-from, or
default-constructed), each of `ping`, `update`, `send_` and `recv_` fails
with `std::system_error(ENOTCONN, generic)` — none of them silently
succeeds. -/
theorem invalid_handle_always_notconn (c : Controller) (se : SendRes) (re : RecvRes)
    (segs : List (List Nat)) (n r g b : Nat) (env : SendRes) (re2 : RecvRes)
    (hv : c.is_valid = false) :
    (ping c se re).1 = .error ⟨ENOTCONN, .generic, ""⟩ ∧
    (update c r g b env).1 = .error ⟨ENOTCONN, .generic, ""⟩ ∧
    send_ c segs env = .error ⟨ENOTCONN, .generic, ""⟩ ∧
    recv_ c n re2 = .error ⟨ENOTCONN, .generic, ""⟩ := by
  simp [ping, update, send_, recv_, hv]

/-- C4 witness: the default-constructed (invalid) handle at concrete
arguments. -/
theorem invalid_handle_always_notconn_witness :
    (ping ⟨-1⟩ (.sent 8) (.dgram [])).1 = .error ⟨ENOTCONN, .generic, ""⟩ ∧
    (update ⟨-1⟩ 1 2 3 (.sent 14)).1 = .error ⟨ENOTCONN, .generic, ""⟩ ∧
    send_ ⟨-1⟩ [[1]] (.sent 14) = .error ⟨ENOTCONN, .generic, ""⟩ ∧
    recv_ ⟨-1⟩ 8 (.dgram []) = .error ⟨ENOTCONN, .generic, ""⟩ :=
  invalid_handle_always_notconn ⟨-1⟩ (.sent 8) (.dgram []) [[1]] 8 1 2 3 (.sent 14)
    (.dgram []) (by decide)

/-- C6: on a valid handle, `send_` with an empty segment list, or with a
segment list whose total byte count is zero, fails with
`std::system_error(EINVAL, generic)`; the result does not depend on the
network environment, i.e. nothing reaches the network layer. -/
theorem send_empty_or_zero_einval (c : Controller) (segs : List (List Nat))
    (env env2 : SendRes) (hv : c.is_valid = true) (hz : totalBytes segs = 0) :
    send_ c [] env = .error ⟨EINVAL, .generic, ""⟩ ∧
    send_ c segs env2 = .error ⟨EINVAL, .generic, ""⟩ := by
  cases segs <;> simp_all [send_, totalBytes]

/-- C6 witness: a concrete valid handle, the empty segment list, and a
two-segment list of empty segments. -/
theorem send_empty_or_zero_einval_witness :
    send_ ⟨3⟩ [] (.sent 0) = .error ⟨EINVAL, .generic, ""⟩ ∧
    send_ ⟨3⟩ [[], []] (.fault 99) = .error ⟨EINVAL, .generic, ""⟩ :=
  send_empty_or_zero_einval ⟨3⟩ [[], []] (.sent 0) (.fault 99) (by decide) (by decide)

/-- C9: for every (r, g, b) in [0, 65535]^3, serializing the Update payload
(each channel through `SERIALIZE_U16`, concatenated R, G, B) and
deserializing it (each 16-bit slot through `DESERIALIZE_U16`) reproduces the
original triple; in particular the byte swap is an involution on 16-bit
values. -/
theorem update_payload_roundtrip (r g b : Nat)
    (hr : r < 65536) (hg : g < 65536) (hb : b < 65536) :
    decodePayload (updatePayloadBytes r g b) = (r, g, b) ∧
    DESERIALIZE_U16 (SERIALIZE_U16 r) = r := by
  have hdig := digits256
  have hswap : ∀ x : Nat, x < 65536 → DESERIALIZE_U16 (SERIALIZE_U16 x) = x := by
    intro x hx
    obtain ⟨b, a, rfl, hb, ha⟩ : ∃ b a, x = 256 * b + a ∧ b < 256 ∧ a < 256 :=
      ⟨x / 256, x % 256, by omega, by omega, by omega⟩
    unfold DESERIALIZE_U16 SERIALIZE_U16
    have e1 : (256 * b + a) % 256 = a := by omega
    have e2 : (256 * b + a) / 256 = b := by omega
    have e3 : b % 256 = b := by omega
    rw [e1, e2, e3]
    obtain ⟨f1, f2⟩ := hdig a b ha hb
    rw [f1, f2]
    omega
  have hread : ∀ x : Nat, x < 65536 →
      SERIALIZE_U16 x % 256 + SERIALIZE_U16 x / 256 % 256 * 256 = SERIALIZE_U16 x := by
    intro x hx
    unfold SERIALIZE_U16
    obtain ⟨f1, f2⟩ := hdig (x % 256) (x / 256 % 256) (by omega) (by omega)
    rw [f1, f2]
    omega
  refine ⟨?_, hswap r hr⟩
  have hlist : updatePayloadBytes r g b =
      [SERIALIZE_U16 r % 256, SERIALIZE_U16 r / 256 % 256,
       SERIALIZE_U16 g % 256, SERIALIZE_U16 g / 256 % 256,
       SERIALIZE_U16 b % 256, SERIALIZE_U16 b / 256 % 256] := rfl
  rw [hlist]
  unfold decodePayload
  simp only [List.getD_cons_zero, List.getD_cons_succ]
  rw [hread r hr, hread g hg, hread b hb, hswap r hr, hswap g hg, hswap b hb]

/-- C9 witness: the round trip at (1000, 2000, 3000). -/
theorem update_payload_roundtrip_witness :
    decodePayload (updatePayloadBytes 1000 2000 3000) = (1000, 2000, 3000) ∧
    DESERIALIZE_U16 (SERIALIZE_U16 1000) = 1000 :=
  update_payload_roundtrip 1000 2000 3000 (by decide) (by decide) (by decide)

/-- C10: `ping` and `update` leave the controller state (hence
`is_valid()`) unchanged in every outcome — their bodies never assign `fd_`;
validity changes only through `close()`, being moved from, or move
assignment over the handle, each of which leaves the source handle
invalid. -/
theorem validity_invariant (c c2 : Controller) (se : SendRes) (re : RecvRes)
    (r g b : Nat) (env : SendRes) :
    (ping c se re).2 = c ∧
    (update c r g b env).2 = c ∧
    (Controller.close c).is_valid = false ∧
    (c.moveCtor.2).is_valid = false ∧
    ((c.moveAssign c2).1.fd = c2.fd ∧ (c.moveAssign c2).2.is_valid = false) := by
  refine ⟨?_, ?_, ?_, ?_, ?_, ?_⟩
  · unfold ping
    split
    · rfl
    · split
      · rfl
      · split
        · split <;> rfl
        · rfl
  · unfold update
    split <;> rfl
  · unfold Controller.close
    split <;> simp_all [Controller.is_valid, invalid_socket]
  · simp [Controller.moveCtor, Controller.is_valid, invalid_socket]
  · simp [Controller.moveAssign]
  · simp [Controller.moveAssign, Controller.is_valid, invalid_socket]

/-- C1: when the `recv` during `ping` fails with an errno classified as
timeout/would-block (ETIMEDOUT, EWOULDBLOCK, EAGAIN), `ping` returns
`false`; every other `recv` fault is propagated unchanged (same code, system
category, context "recv"). -/
theorem ping_recv_fault_classification (c : Controller) (se : SendRes) (e : Nat)
    (hv : c.is_valid = true) (hs : send_ c [pingHeader.toBytes] se = .ok ()) :
    (ping c se (.fault e)).1 =
      if isTimeoutCode e then .ok false else .error ⟨e, .system, "recv"⟩ := by
  have hf : pingTry c (.fault e) = .error ⟨e, .system, "recv"⟩ := by
    simp [pingTry, recv_, hv]
  simp only [ping, hv, hs, hf]
  by_cases ht : isTimeoutCode e <;> simp [ht]

/-- C1 witness: a timed-out receive (errno 110) on a valid handle yields
`false`. -/
theorem ping_recv_fault_classification_witness :
    (ping ⟨3⟩ (.sent 8) (.fault 110)).1 =
      if isTimeoutCode 110 then .ok false else .error ⟨110, .system, "recv"⟩ :=
  ping_recv_fault_classification ⟨3⟩ (.sent 8) 110 (by decide)
    (send_ping_ok ⟨3⟩ (by decide))

/-- C3: when the `recv` during `ping` succeeds but the byte count is not
exactly 8 (a datagram shorter than `sizeof(RootHeader)`), `ping` fails with
`std::system_error(EIO, generic)` — an error, not a `false` return, and its
code is not one of the timeout codes. -/
theorem ping_short_reply_eio (c : Controller) (se : SendRes) (bytes : List Nat)
    (hv : c.is_valid = true) (hs : send_ c [pingHeader.toBytes] se = .ok ())
    (hn : min bytes.length 8 ≠ 8) :
    (ping c se (.dgram bytes)).1 = .error ⟨EIOerrno, .generic, ""⟩ ∧
    isTimeoutCode EIOerrno = false := by
  refine ⟨?_, by decide⟩
  have hf : pingTry c (.dgram bytes) = .error ⟨EIOerrno, .generic, ""⟩ := by
    simp [pingTry, recv_, hv, hn]
  simp only [ping, hv, hs, hf]
  simp [isTimeoutCode, EIOerrno, ETIMEDOUT, EWOULDBLOCK, EAGAIN]

/-- C3 witness: a 3-byte reply on a valid handle. -/
theorem ping_short_reply_eio_witness :
    (ping ⟨3⟩ (.sent 8) (.dgram [1, 2, 3])).1 = .error ⟨EIOerrno, .generic, ""⟩ ∧
    isTimeoutCode EIOerrno = false :=
  ping_short_reply_eio ⟨3⟩ (.sent 8) [1, 2, 3] (by decide)
    (send_ping_ok ⟨3⟩ (by decide)) (by decide)

/-- C2: for an 8-byte response (genuine byte values), `ping` returns without
error, and it returns `true` exactly when the response bytes equal,
byte for byte, the 8 PING header bytes that were sent; any mismatch in any
of the four fields makes it return `false`. -/
theorem ping_echo_fieldwise (c : Controller) (bytes : List Nat)
    (hv : c.is_valid = true) (hlen : bytes.length = 8)
    (hbyte : ∀ x ∈ bytes, x < 256) :
    ∃ b : Bool, (ping c (.sent 8) (.dgram bytes)).1 = .ok b ∧
      (b = true ↔ bytes = pingHeader.toBytes) := by
  obtain ⟨b0, b1, b2, b3, b4, b5, b6, b7, rfl⟩ := exists_eight bytes hlen
  have h0 : b0 < 256 := hbyte b0 (by simp)
  have h1 : b1 < 256 := hbyte b1 (by simp)
  have h2 : b2 < 256 := hbyte b2 (by simp)
  have h3 : b3 < 256 := hbyte b3 (by simp)
  have h4 : b4 < 256 := hbyte b4 (by simp)
  have h5 : b5 < 256 := hbyte b5 (by simp)
  have h6 : b6 < 256 := hbyte b6 (by simp)
  have h7 : b7 < 256 := hbyte b7 (by simp)
  have htry : pingTry c (.dgram [b0, b1, b2, b3, b4, b5, b6, b7]) =
      .ok (RootHeader.ofBytes [b0, b1, b2, b3, b4, b5, b6, b7]) := by
    simp [pingTry, recv_, hv]
  refine ⟨headerCompare pingHeader (RootHeader.ofBytes [b0, b1, b2, b3, b4, b5, b6, b7]),
    ?_, ?_⟩
  · simp only [ping, hv, send_ping_ok c hv, htry, Bool.not_true, not_true_eq_false,
      Bool.true_eq_false, not_false_eq_true, reduceIte]
  · have hping : pingHeader = ⟨1380205900, 0, 1, 0⟩ := by decide
    rw [pingHeader_toBytes_eq, hping]
    simp only [headerCompare, RootHeader.ofBytes, List.getD_cons_zero, List.getD_cons_succ,
      Bool.and_eq_true, beq_iff_eq, List.cons.injEq, and_true]
    omega

/-- C2 witness: the exact echo of the PING header bytes yields `true`. -/
theorem ping_echo_fieldwise_witness :
    ∃ b : Bool, (ping ⟨3⟩ (.sent 8) (.dgram [76, 69, 68, 82, 0, 1, 0, 0])).1 = .ok b ∧
      (b = true ↔ [76, 69, 68, 82, 0, 1, 0, 0] = pingHeader.toBytes) :=
  ping_echo_fieldwise ⟨3⟩ [76, 69, 68, 82, 0, 1, 0, 0] (by decide) (by decide) (by decide)

/-- The LE bytes of a byte-swapped 16-bit value are the big-endian (network
order) bytes of the value. -/
lemma u16leBytes_swap (x : Nat) (hx : x < 65536) :
    u16leBytes (SERIALIZE_U16 x) = [x / 256, x % 256] := by
  obtain ⟨f1, f2⟩ := digits256 (x % 256) (x / 256 % 256) (by omega) (by omega)
  simp only [u16leBytes, SERIALIZE_U16, f1, f2, List.cons.injEq, and_true]
  omega

/-- C5: `update(r, g, b)` on a valid handle performs exactly one gather-send
of two segments totalling 14 bytes: the 8 header bytes (magic "LEDR" in
network byte order, version 0x00, action 0x02, flags 0x0000) followed by the
6 payload bytes r, g, b in that order, each in network byte order; nothing
is received, and the result of `update` is precisely the result of that one
`send_` call. -/
theorem update_frame_layout (c : Controller) (r g b : Nat) (env : SendRes)
    (hv : c.is_valid = true) (hr : r < 65536) (hg : g < 65536) (hb : b < 65536) :
    updateSegments r g b =
      [[76, 69, 68, 82, 0, 2, 0, 0],
       [r / 256, r % 256, g / 256, g % 256, b / 256, b % 256]] ∧
    totalBytes (updateSegments r g b) = 14 ∧
    (update c r g b env).1 = send_ c (updateSegments r g b) env := by
  have hhdr : updateHeader.toBytes = [76, 69, 68, 82, 0, 2, 0, 0] := by decide
  have hseg : updateSegments r g b =
      [[76, 69, 68, 82, 0, 2, 0, 0],
       [r / 256, r % 256, g / 256, g % 256, b / 256, b % 256]] := by
    simp only [updateSegments, hhdr, updatePayloadBytes, u16leBytes_swap r hr,
      u16leBytes_swap g hg, u16leBytes_swap b hb]
    rfl
  refine ⟨hseg, ?_, ?_⟩
  · rw [hseg]
    rfl
  · simp [update, hv]

/-- C5 witness: the frame for update(1000, 2000, 3000) on a valid handle,
with the network layer reporting all 14 bytes sent. -/
theorem update_frame_layout_witness :
    updateSegments 1000 2000 3000 =
      [[76, 69, 68, 82, 0, 2, 0, 0],
       [1000 / 256, 1000 % 256, 2000 / 256, 2000 % 256, 3000 / 256, 3000 % 256]] ∧
    totalBytes (updateSegments 1000 2000 3000) = 14 ∧
    (update ⟨3⟩ 1000 2000 3000 (.sent 14)).1 =
      send_ ⟨3⟩ (updateSegments 1000 2000 3000) (.sent 14) :=
  update_frame_layout ⟨3⟩ 1000 2000 3000 (.sent 14) (by decide) (by decide) (by decide)
    (by decide)

/-- C7 counterexample: a partial send (network layer reports 0 of 1 bytes
sent) makes `send_` fail with `std::system_error(EIO, generic)` — a
synthesized error, not a system-category error carrying an underlying
network fault, contrary to the claim's "TransportError carrying the
underlying network fault" for the byte-count-mismatch case. -/
theorem send_partial_not_transport_fault :
    send_ ⟨3⟩ [[1]] (.sent 0) = .error ⟨EIOerrno, .generic, ""⟩ ∧
    ¬ specTransportFault ⟨EIOerrno, .generic, ""⟩ := by
  constructor
  · rfl
  · simp [specTransportFault]

/-- C7 amended: on a valid handle with a nonempty, nonzero-total segment
list, a failing `sendmsg` makes `send_` fail with the underlying network
fault (its errno, system category, context "sendmsg" — a TransportError);
a reported byte count different from the requested total makes it fail with
the synthesized `std::system_error(EIO, generic)`, which does not carry a
network fault; both are hard failures, never retried. -/
theorem send_failure_modes (c : Controller) (segs : List (List Nat)) (e n : Nat)
    (hv : c.is_valid = true) (hne : segs.isEmpty = false) (hnz : totalBytes segs ≠ 0)
    (hmis : n ≠ totalBytes segs) :
    (send_ c segs (.fault e) = .error ⟨e, .system, "sendmsg"⟩ ∧
     specTransportFault ⟨e, .system, "sendmsg"⟩) ∧
    (send_ c segs (.sent n) = .error ⟨EIOerrno, .generic, ""⟩ ∧
     ¬ specTransportFault ⟨EIOerrno, .generic, ""⟩) := by
  refine ⟨⟨?_, rfl⟩, ?_, ?_⟩
  · simp [send_, hv, hne, hnz]
  · simp [send_, hv, hne, hnz, hmis]
  · simp [specTransportFault]

/-- C7 witness: one 1-byte segment, errno 101 for the failing send, reported
count 0 for the partial send. -/
theorem send_failure_modes_witness :
    (send_ ⟨3⟩ [[9]] (.fault 101) = .error ⟨101, .system, "sendmsg"⟩ ∧
     specTransportFault ⟨101, .system, "sendmsg"⟩) ∧
    (send_ ⟨3⟩ [[9]] (.sent 0) = .error ⟨EIOerrno, .generic, ""⟩ ∧
     ¬ specTransportFault ⟨EIOerrno, .generic, ""⟩) :=
  send_failure_modes ⟨3⟩ [[9]] 101 0 (by decide) (by decide) (by decide) (by decide)

/-- C8 counterexample: constructing with address family 0 (AF_UNSPEC) fails
with `std::system_error(EINVAL, generic)` — the InvalidArgument shape, not a
system-category TransportError carrying a network fault, contrary to the
claim's "fails with a TransportError when the supplied address family is
neither IPv4 nor IPv6". -/
theorem construct_bad_family_not_transport :
    construct 0 ⟨.ok 4, none, none⟩ = (.error ⟨EINVAL, .generic, ""⟩, [], []) ∧
    ¬ specTransportFault ⟨EINVAL, .generic, ""⟩ := by
  constructor
  · rfl
  · simp [specTransportFault]

/-- C8 amended: construction fails with `std::system_error(EINVAL, generic)`
(the InvalidArgument shape) when the address family is neither AF_INET nor
AF_INET6, and with a system-category error carrying the underlying fault
(context "socket" / "connect" / "setsockopt") when socket creation, binding
to the peer, or timeout configuration fails; in every failure case the list
of descriptors still open equals the list of descriptors closed — any
partially-created socket is released before the error propagates, and no
controller is produced. -/
theorem construct_failure_modes (v4 : Bool) (f e : Nat) (fd : Int)
    (co so : Option Nat) (env : ConsEnv)
    (hf2 : f ≠ AF_INET) (hf6 : f ≠ AF_INET6) :
    construct f env = (.error ⟨EINVAL, .generic, ""⟩, [], []) ∧
    construct (cond v4 AF_INET AF_INET6) ⟨.error e, co, so⟩ =
      (.error ⟨e, .system, "socket"⟩, [], []) ∧
    construct (cond v4 AF_INET AF_INET6) ⟨.ok fd, some e, so⟩ =
      (.error ⟨e, .system, "connect"⟩, [fd], [fd]) ∧
    construct (cond v4 AF_INET AF_INET6) ⟨.ok fd, none, some e⟩ =
      (.error ⟨e, .system, "setsockopt"⟩, [fd], [fd]) := by
  have hf2n : f ≠ 2 := hf2
  have hf6n : f ≠ 10 := hf6
  cases v4 <;> simp [construct, hf2n, hf6n, AF_INET, AF_INET6]

/-- C8 witness: family 0 with a benign environment; family AF_INET with a
failing socket call (errno 13), a failing connect (errno 13), and a failing
setsockopt (errno 13) on descriptor 4. -/
theorem construct_failure_modes_witness :
    construct 0 ⟨.ok 4, none, none⟩ = (.error ⟨EINVAL, .generic, ""⟩, [], []) ∧
    construct (cond true AF_INET AF_INET6) ⟨.error 13, none, none⟩ =
      (.error ⟨13, .system, "socket"⟩, [], []) ∧
    construct (cond true AF_INET AF_INET6) ⟨.ok 4, some 13, none⟩ =
      (.error ⟨13, .system, "connect"⟩, [4], [4]) ∧
    construct (cond true AF_INET AF_INET6) ⟨.ok 4, none, some 13⟩ =
      (.error ⟨13, .system, "setsockopt"⟩, [4], [4]) :=
  construct_failure_modes true 0 13 4 none none ⟨.ok 4, none, none⟩ (by decide) (by decide)

end LEDriver
